import Mathlib

/-!
Verification of the session/handoff core of the telegram-dtv repository.

The JavaScript source is embedded shallowly: the asynchronous, single-threaded
service methods become pure state-passing functions; wall-clock time
(`Date.now()`) is an explicit `now : Nat` argument; a dependency call that the
source performs over the network is given its outcome as an explicit argument
(a `Bool` failure flag or an `Except` value).  Every embedded definition keeps
the name of the source function it translates.
-/

namespace TelegramDTV

/-- Chat identifiers (Telegram chat ids). -/
abbrev ChatId := Nat

/-! ### Association-list maps

JavaScript plain objects / `Map`s keyed by chat id are modelled as
association lists: `set` replaces any previous binding, `get` returns the
binding if present. -/

/-- Lookup in an association list (JS `map.get(k)` / `obj[k]`). -/
def alookup {α : Type} : List (ChatId × α) → ChatId → Option α
  | [], _ => none
  | p :: l, k => if p.1 = k then some p.2 else alookup l k

/-- Delete from an association list (JS `map.delete(k)`). -/
def aerase {α : Type} : List (ChatId × α) → ChatId → List (ChatId × α)
  | [], _ => []
  | p :: l, k => if p.1 = k then aerase l k else p :: aerase l k

/-- Insert-or-replace in an association list (JS `map.set(k, v)` / `obj[k] = v`). -/
def ainsert {α : Type} (l : List (ChatId × α)) (k : ChatId) (v : α) :
    List (ChatId × α) :=
  (k, v) :: aerase l k

theorem alookup_aerase_self {α : Type} (l : List (ChatId × α)) (k : ChatId) :
    alookup (aerase l k) k = none := by
  induction l with
  | nil => rfl
  | cons p l ih =>
    by_cases hp : p.1 = k
    · simpa [aerase, hp] using ih
    · simpa [aerase, alookup, hp] using ih

theorem alookup_aerase_ne {α : Type} (l : List (ChatId × α)) (k k' : ChatId)
    (h : k ≠ k') : alookup (aerase l k) k' = alookup l k' := by
  induction l with
  | nil => rfl
  | cons p l ih =>
    by_cases hp : p.1 = k
    · simpa [aerase, alookup, hp, h] using ih
    · by_cases hq : p.1 = k'
      · simp [aerase, alookup, hp, hq, Ne.symm h]
      · simpa [aerase, alookup, hp, hq] using ih

theorem alookup_ainsert_self {α : Type} (l : List (ChatId × α)) (k : ChatId) (v : α) :
    alookup (ainsert l k v) k = some v := by
  simp [alookup, ainsert]

theorem alookup_ainsert_ne {α : Type} (l : List (ChatId × α)) (k k' : ChatId) (v : α)
    (h : k ≠ k') : alookup (ainsert l k v) k' = alookup l k' := by
  simp only [ainsert, alookup, h, if_false]
  exact alookup_aerase_ne l k k' h

/-! ### `src/utils/cache.js` — `SessionCache` and `retryOperation` -/

/-- A user session as held by the in-memory map and the TTL cache of
`BotService` (src/unnamed/part_004): `{ id: threadId, humanHandoff }`. -/
structure SessionData where
  id : String
  humanHandoff : Bool
deriving DecidableEq

/-- One entry of `SessionCache.cache`: `{ data, expires: Date.now() + this.ttl }`. -/
structure CacheEntry where
  data : SessionData
  expires : Nat
deriving DecidableEq

/-- The `SessionCache` class of src/unnamed/part_003 (`src/utils/cache.js`):
a `Map` of entries plus the configured ttl in milliseconds. -/
structure SessionCache where
  cache : List (ChatId × CacheEntry)
  ttl : Nat
deriving DecidableEq

namespace SessionCache

/-- `SessionCache.set(chatId, data)`:
`this.cache.set(chatId, { data, expires: Date.now() + this.ttl })`. -/
def set (c : SessionCache) (now : Nat) (chatId : ChatId) (data : SessionData) :
    SessionCache :=
  { c with cache := ainsert c.cache chatId ⟨data, now + c.ttl⟩ }

/-- `SessionCache.get(chatId)`: returns the cached data, or `null` when the
entry is absent or expired; an expired entry is deleted on read. -/
def get (c : SessionCache) (now : Nat) (chatId : ChatId) :
    Option SessionData × SessionCache :=
  match alookup c.cache chatId with
  | none => (none, c)
  | some item =>
    if now > item.expires then
      (none, { c with cache := aerase c.cache chatId })
    else
      (some item.data, c)

end SessionCache

/-- Result of one run of the body of `retryOperation`'s `for` loop, folded into
a trace: the final outcome, the number of invocations of `operation`, and the
list of back-off delays slept between attempts.  The error component is an
`Option` because with `maxRetries = 0` the source throws the undefined
`lastError`. -/
structure RetryTrace (ε α : Type) where
  result : Except (Option ε) α
  calls : Nat
  delays : List Nat

/-- The loop of `retryOperation` (src/unnamed/part_003, `src/utils/cache.js`):
`for (attempt = 1; attempt <= maxRetries; attempt++)` — try the operation,
record the error, and sleep `delay * attempt` between attempts.  The loop is
driven by the number of attempts still allowed (`remaining`, initially
`maxRetries`), so the JS guard `attempt < maxRetries` — "sleep and go round
again" — is `remaining ≠ 1` here.  The outcome of the i-th invocation of
`operation` is `op i`. -/
def retryLoop {ε α : Type} (op : Nat → Except ε α) (delay : Nat) :
    Nat → Nat → Option ε → Nat → List Nat → RetryTrace ε α
  | 0, _, lastError, calls, delays => ⟨.error lastError, calls, delays⟩
  | remaining + 1, attempt, _, calls, delays =>
    match op attempt with
    | .ok a => ⟨.ok a, calls + 1, delays⟩
    | .error e =>
      if remaining = 0 then
        ⟨.error (some e), calls + 1, delays⟩
      else
        retryLoop op delay remaining (attempt + 1) (some e) (calls + 1)
          (delays ++ [delay * attempt])

/-- `retryOperation(operation, maxRetries = 3, delay = 1000)`. -/
def retryOperation {ε α : Type} (op : Nat → Except ε α)
    (maxRetries : Nat := 3) (delay : Nat := 1000) : RetryTrace ε α :=
  retryLoop op delay maxRetries 1 none 0 []

/-! ### `CircuitBreaker` (src/unnamed/part_010, production server module) -/

/-- The three breaker states `'CLOSED'`, `'OPEN'`, `'HALF-OPEN'`. -/
inductive BreakerState
  | closed
  | opened
  | halfOpen
deriving DecidableEq

/-- The `CircuitBreaker` class: threshold and reset timeout from the options,
plus the mutable fields `failures`, `lastFailureTime` (`null` initially) and
`state`. -/
structure CircuitBreaker where
  failureThreshold : Nat
  resetTimeout : Nat
  failures : Nat
  lastFailureTime : Option Nat
  state : BreakerState
deriving DecidableEq

namespace CircuitBreaker

/-- `new CircuitBreaker(options)`; defaults are threshold 5, timeout 60000. -/
def mk' (failureThreshold : Nat := 5) (resetTimeout : Nat := 60000) :
    CircuitBreaker :=
  ⟨failureThreshold, resetTimeout, 0, none, .closed⟩

/-- `isOpen()` — note that it mutates: an `OPEN` breaker whose reset timeout
has elapsed since the last failure moves to `HALF-OPEN` and reports not-open.
JavaScript `now - null` is `now - 0`, modelled by `Option.getD 0`. -/
def isOpen (cb : CircuitBreaker) (now : Nat) : Bool × CircuitBreaker :=
  if cb.state = .opened then
    if now - cb.lastFailureTime.getD 0 ≥ cb.resetTimeout then
      (false, { cb with state := .halfOpen })
    else
      (true, cb)
  else
    (false, cb)

/-- `onSuccess()`: reset the failure counter and close the breaker. -/
def onSuccess (cb : CircuitBreaker) : CircuitBreaker :=
  { cb with failures := 0, state := .closed }

/-- `onFailure()`: count the failure, stamp the time, and open the breaker
once the threshold is reached. -/
def onFailure (cb : CircuitBreaker) (now : Nat) : CircuitBreaker :=
  let f := cb.failures + 1
  { cb with
    failures := f
    lastFailureTime := some now
    state := if f ≥ cb.failureThreshold then .opened else cb.state }

/-- Result of `execute(operation)`: the distinct breaker-open rejection, or
the operation's own success / failure. -/
inductive ExecResult (ε α : Type)
  | breakerOpen
  | opOk (a : α)
  | opErr (e : ε)
deriving DecidableEq

/-- `execute(operation)`.  `outcome` is what the underlying operation would
produce if invoked; the middle component of the result records whether the
operation was actually invoked. -/
def execute {ε α : Type} (cb : CircuitBreaker) (now : Nat)
    (outcome : Except ε α) : ExecResult ε α × Bool × CircuitBreaker :=
  let (opn, cb1) := cb.isOpen now
  if opn then
    (.breakerOpen, false, cb1)
  else
    match outcome with
    | .ok a => (.opOk a, true, cb1.onSuccess)
    | .error e => (.opErr e, true, cb1.onFailure now)

/-- Folding a sequence of `execute` calls, keeping only the breaker state:
each list element is the wall-clock time and the operation outcome offered to
that call. -/
def runCalls {ε α : Type} (cb : CircuitBreaker)
    (calls : List (Nat × Except ε α)) : CircuitBreaker :=
  calls.foldl (fun c p => (execute c p.1 p.2).2.2) cb

end CircuitBreaker

/-! ### `DbService` (src/src/services/dbService.js)

Every `DbService` method wraps its Supabase call in `try/catch`: a failure of
the underlying store is logged and converted to `null` / `false` — it never
propagates to the caller.  The possibility of such a failure is an explicit
`fail : Bool` argument. -/

/-- One row of the `sessions` table (columns used by the embedded claims;
timestamp columns are not modelled). -/
structure DbSessionRow where
  thread_id : String
  human_handoff : Bool
  transferred_to_operator : Bool
deriving DecidableEq

/-- Message roles `'user' | 'assistant' | 'system'`. -/
inductive Role
  | user
  | assistant
  | system
deriving DecidableEq

/-- One row of the append-only `message_logs` table. -/
structure MsgLogRow where
  chat_id : ChatId
  role : Role
  content : String
deriving DecidableEq

/-- The durable store: the `sessions` table and the `message_logs` table. -/
structure DbState where
  sessions : List (ChatId × DbSessionRow)
  message_logs : List MsgLogRow
deriving DecidableEq

namespace DbService

/-- `storeUserSession(chatId, threadId, humanHandoff)`: upsert into
`sessions`; on a store failure the error is caught, logged, and `null` is
returned — the table is left as it was and no exception escapes. -/
def storeUserSession (fail : Bool) (db : DbState) (chatId : ChatId)
    (threadId : String) (humanHandoff : Bool) : DbState :=
  if fail then db
  else
    { db with
      sessions := ainsert db.sessions chatId
        ⟨threadId, humanHandoff, ((alookup db.sessions chatId).map
          (·.transferred_to_operator)).getD false⟩ }

/-- `getUserSession(chatId)`: select the row, `null` when absent; a read
failure is caught and also yields `null`. -/
def getUserSession (fail : Bool) (db : DbState) (chatId : ChatId) :
    Option DbSessionRow :=
  if fail then none else alookup db.sessions chatId

/-- `setHumanHandoff(chatId, enabled)` (src/src/services/dbService.js
lines 102-120): update `human_handoff` where `chat_id` matches, returning
`true`; a failure is caught, logged, and returns `false`.  An update whose
filter matches no row is not an error. -/
def setHumanHandoff (fail : Bool) (db : DbState) (chatId : ChatId)
    (enabled : Bool) : Bool × DbState :=
  if fail then (false, db)
  else
    match alookup db.sessions chatId with
    | none => (true, db)
    | some row =>
      (true, { db with
        sessions := ainsert db.sessions chatId { row with human_handoff := enabled } })

/-- `logMessage(chatId, role, content)`: append to `message_logs`; failures
are caught and yield `null`. -/
def logMessage (fail : Bool) (db : DbState) (chatId : ChatId) (role : Role)
    (content : String) : DbState :=
  if fail then db
  else { db with message_logs := db.message_logs ++ [⟨chatId, role, content⟩] }

/-- `logOperatorTransfer(chatId)`: set the `transferred_to_operator` audit
fields on the session row, then append a `role='system'` transfer entry to
`message_logs`. -/
def logOperatorTransfer (fail : Bool) (db : DbState) (chatId : ChatId) :
    DbState :=
  if fail then db
  else
    let db1 :=
      match alookup db.sessions chatId with
      | none => db
      | some row =>
        { db with
          sessions := ainsert db.sessions chatId
            { row with transferred_to_operator := true } }
    logMessage false db1 chatId .system "User transferred to operator"

end DbService

/-! ### `BotService` (src/unnamed/part_004) — the tiered session registry -/

/-- JavaScript `text.includes(marker)`: exact substring containment. -/
def jsIncludes (text marker : String) : Bool :=
  text.data.tails.any (fun t => List.isPrefixOf marker.data t)

/-- Outbound messages sent to a chat via the Telegram bot.  Fixed bot texts
are enumerated; `reply` carries an arbitrary text (an assistant reply, an
operator-transfer message). -/
inductive BotText
  | stillInitializing
  | welcome
  | failedToCreateSession
  | reply (text : String)
  | contactButton
deriving DecidableEq

/-- The mutable state of the `BotService` singleton: the in-memory fallback
map `userThreads`, the TTL `sessionCache`, the `useDatabase` flag, and the
durable store it talks to. -/
structure BotState where
  userThreads : List (ChatId × SessionData)
  sessionCache : SessionCache
  useDatabase : Bool
  db : DbState
deriving DecidableEq

namespace BotState

/-- `getUserThread(chatId)` (src/unnamed/part_004 lines 158-194): check the
TTL cache first, then the in-memory map (copying a hit into the cache), then
— if the database is available — the durable store, copying a hit into both
faster tiers; `null` when absent everywhere.  A database read failure is
caught (and already swallowed inside `DbService`) and falls through to
`null`. -/
def getUserThread (s : BotState) (now : Nat) (dbReadFail : Bool)
    (chatId : ChatId) : Option SessionData × BotState :=
  let r := s.sessionCache.get now chatId
  match r.1 with
  | some t => (some t, { s with sessionCache := r.2 })
  | none =>
    let s1 : BotState := { s with sessionCache := r.2 }
    match alookup s1.userThreads chatId with
    | some t =>
      (some t, { s1 with sessionCache := s1.sessionCache.set now chatId t })
    | none =>
      if s1.useDatabase then
        match DbService.getUserSession dbReadFail s1.db chatId with
        | some row =>
          let threadData : SessionData := ⟨row.thread_id, row.human_handoff⟩
          (some threadData,
            { s1 with
              userThreads := ainsert s1.userThreads chatId threadData
              sessionCache := s1.sessionCache.set now chatId threadData })
        | none => (none, s1)
      else (none, s1)

/-- `storeUserThread(chatId, threadId, humanHandoff = false)` (lines 127-142):
write the session into the in-memory map and the TTL cache, then — if the
database is available — upsert it via
`retryOperation(() => dbService.storeUserSession(...))`.  Since
`storeUserSession` catches every store failure internally, the retried
operation never rejects and the overall write always resolves; `dbFail`
records whether the underlying durable upsert failed (and was swallowed). -/
def storeUserThread (s : BotState) (now : Nat) (dbFail : Bool)
    (chatId : ChatId) (threadId : String) (humanHandoff : Bool := false) :
    BotState :=
  let sessionData : SessionData := ⟨threadId, humanHandoff⟩
  let s1 : BotState :=
    { s with
      userThreads := ainsert s.userThreads chatId sessionData
      sessionCache := s.sessionCache.set now chatId sessionData }
  if s1.useDatabase then
    { s1 with
      db := DbService.storeUserSession dbFail s1.db chatId threadId humanHandoff }
  else s1

/-- `setHumanHandoff(chatId, enabled)` (lines 201-220): read the session via
`getUserThread`; `false` when there is none.  Otherwise the session object is
mutated in place and re-set into the TTL cache; because the in-memory map,
when it holds this chat, references the same object, it observes the update
too.  The durable update is wrapped in `try/catch` — its failure is only
logged — and the call returns `true`. -/
def setHumanHandoff (s : BotState) (now : Nat) (dbReadFail dbWriteFail : Bool)
    (chatId : ChatId) (enabled : Bool) : Bool × BotState :=
  let r := s.getUserThread now dbReadFail chatId
  let s1 : BotState := r.2
  match r.1 with
  | none => (false, s1)
  | some thread =>
    let updated : SessionData := { thread with humanHandoff := enabled }
    let s2 : BotState :=
      { s1 with
        userThreads :=
          if (alookup s1.userThreads chatId).isSome then
            ainsert s1.userThreads chatId updated
          else s1.userThreads
        sessionCache := s1.sessionCache.set now chatId updated }
    let s3 : BotState :=
      if s2.useDatabase then
        { s2 with db := (DbService.setHumanHandoff dbWriteFail s2.db chatId enabled).2 }
      else s2
    (true, s3)

/-- `isInHumanHandoff(chatId)` (lines 227-230). -/
def isInHumanHandoff (s : BotState) (now : Nat) (dbReadFail : Bool)
    (chatId : ChatId) : Bool × BotState :=
  let r := s.getUserThread now dbReadFail chatId
  ((r.1.map (·.humanHandoff)).getD false, r.2)

/-- `sendOperatorContact(chatId)` (lines 290-328): log the operator transfer
in the durable store, send the inline-keyboard contact button, and append a
`role='system'` audit entry. -/
def sendOperatorContact (s : BotState) (dbFail : Bool) (chatId : ChatId) :
    BotState × List (ChatId × BotText) :=
  let s1 : BotState :=
    if s.useDatabase then
      { s with db := DbService.logOperatorTransfer dbFail s.db chatId }
    else s
  let s2 : BotState :=
    if s1.useDatabase then
      { s1 with
        db := DbService.logMessage dbFail s1.db chatId .system
          "Operator contact button sent" }
    else s1
  (s2, [(chatId, .contactButton)])

/-- `sendMessage(chatId, text, role = 'assistant')` (lines 253-283): when the
text contains the configured operator-transfer marker, send the text followed
by the operator contact affordance; otherwise log the message to the durable
store and send it (with retries). -/
def sendMessageSvc (s : BotState) (marker : String) (dbFail : Bool)
    (chatId : ChatId) (text : String) (role : Role := .assistant) :
    BotState × List (ChatId × BotText) :=
  if jsIncludes text marker then
    let r := s.sendOperatorContact dbFail chatId
    (r.1, (chatId, BotText.reply text) :: r.2)
  else
    let s1 : BotState :=
      if s.useDatabase then
        { s with db := DbService.logMessage dbFail s.db chatId role text }
      else s
    (s1, [(chatId, BotText.reply text)])

end BotState

/-! ### `/start` command handler (src/src/handlers/commandHandler.js 16-38) -/

/-- The `/start` handler: refuse while the assistant is not initialized;
otherwise mint a thread via `openaiService.createThread()` and persist it via
`botService.storeUserThread`; when `createThread` (or anything in the `try`)
throws, the `catch` sends a failure message and stores nothing. -/
def startHandler (s : BotState) (now : Nat) (assistantReady : Bool)
    (createThreadResult : Except String String) (dbFail : Bool)
    (chatId : ChatId) : BotState × List (ChatId × BotText) :=
  if ¬ assistantReady then
    (s, [(chatId, .stillInitializing)])
  else
    match createThreadResult with
    | .ok threadId =>
      (s.storeUserThread now dbFail chatId threadId false, [(chatId, .welcome)])
    | .error _ => (s, [(chatId, .failedToCreateSession)])

/-! ### Webhook handlers (src/src/services/botService.js `WebhookController`,
src/unnamed/part_010 serverless handler) -/

/-- The shape checks `isValidUpdate` performs on `req.body`: the body exists,
is an object, and its `update_id` is a number. -/
structure WebhookBody where
  isObject : Bool
  updateIdIsNumber : Bool
deriving DecidableEq

namespace WebhookController

/-- `isValidUpdate(update)` (src/src/services/botService.js lines 713-717). -/
def isValidUpdate (body : Option WebhookBody) : Bool :=
  match body with
  | none => false
  | some b => b.isObject && b.updateIdIsNumber

/-- `handleUpdate(req, res)` (src/src/services/botService.js lines 690-708),
reduced to the HTTP status it responds: 400 for an invalid update shape;
otherwise 200, also when processing throws (the `catch` comments
"Always return 200 to Telegram to prevent retries"). -/
def handleUpdate (body : Option WebhookBody) (processing : Except String Unit) :
    Nat :=
  if isValidUpdate body then
    match processing with
    | .ok _ => 200
    | .error _ => 200
  else 400

end WebhookController

/-- The serverless `handler` webhook branch (src/unnamed/part_010 lines
66-101), reduced to its HTTP status: 400 when the body is missing, 500 when
processing (or initialization) throws, else 200. -/
def serverlessWebhookStatus (body : Option WebhookBody)
    (processing : Except String Unit) : Nat :=
  match body with
  | none => 400
  | some _ =>
    match processing with
    | .ok _ => 200
    | .error _ => 500

/-! ### `MessageQueue` (src/src/utils/messageQueue.js)

Items are identified by numbers.  The scheduling-relevant state is embedded;
an item's processing function "completes only when externally signaled", so
completion of an in-flight item is a separate step (`complete`), which also
runs the `.finally` callback of `processItem`: decrement `processing` and call
`processQueue()` again. -/

structure MQState where
  queue : List Nat
  processing : Nat
  isProcessing : Bool
  concurrency : Nat
  inFlight : List Nat
  settled : List Nat
deriving DecidableEq

namespace MQState

/-- `new MessageQueue(concurrency = 5)`. -/
def mk' (concurrency : Nat := 5) : MQState :=
  ⟨[], 0, false, concurrency, [], []⟩

/-- The `while (this.queue.length > 0 && this.processing < this.concurrency)`
loop of `processQueue`: shift the next item, count it as processing and start
`processItem` on it (it becomes in-flight; its completion is an external
signal). -/
def processLoopGo (concurrency : Nat) :
    List Nat → Nat → List Nat → List Nat × Nat × List Nat
  | [], processing, inFlight => ([], processing, inFlight)
  | item :: rest, processing, inFlight =>
    if processing < concurrency then
      processLoopGo concurrency rest (processing + 1) (inFlight ++ [item])
    else (item :: rest, processing, inFlight)

/-- The `while` loop applied to the queue state. -/
def processLoop (s : MQState) : MQState :=
  let r := processLoopGo s.concurrency s.queue s.processing s.inFlight
  { s with queue := r.1, processing := r.2.1, inFlight := r.2.2 }

/-- `processQueue()`: re-entry is guarded by `isProcessing`; after the loop,
the flag is reset only when both the queue and the in-flight count are
empty. -/
def processQueue (s : MQState) : MQState :=
  if s.isProcessing then s
  else
    let s1 := processLoop { s with isProcessing := true }
    if s1.queue.isEmpty ∧ s1.processing = 0 then
      { s1 with isProcessing := false }
    else s1

/-- `add(message, processor)`: push onto the queue and start `processQueue`
unless it is (believed to be) already running. -/
def add (s : MQState) (item : Nat) : MQState :=
  let s1 : MQState := { s with queue := s.queue ++ [item] }
  if ¬ s1.isProcessing then s1.processQueue else s1

/-- External completion of an in-flight item: its deferred result settles and
the `.finally` callback runs — `this.processing--; this.processQueue()`. -/
def complete (s : MQState) (item : Nat) : MQState :=
  if item ∈ s.inFlight then
    let s1 : MQState :=
      { s with
        processing := s.processing - 1
        inFlight := s.inFlight.erase item
        settled := s.settled ++ [item] }
    s1.processQueue
  else s

end MQState

/-! ### The read path as claim C1 words it (for comparison)

Claim C1 describes the read order as in-memory map → TTL cache → durable
store with promotion into every faster tier; this definition follows those
words so the embedded `getUserThread` can be compared against it. -/

/-- Follows the words of the spec sentence behind claim C1: try the in-memory
map first, then the TTL cache (promoting a hit into the map), then the
durable store (promoting a hit into map and cache); `null` when absent in all
tiers. -/
def getSessionSpecOrder (s : BotState) (now : Nat) (dbReadFail : Bool)
    (chatId : ChatId) : Option SessionData × BotState :=
  match alookup s.userThreads chatId with
  | some t => (some t, s)
  | none =>
    let r := s.sessionCache.get now chatId
    let s1 : BotState := { s with sessionCache := r.2 }
    match r.1 with
    | some t => (some t, { s1 with userThreads := ainsert s1.userThreads chatId t })
    | none =>
      if s1.useDatabase then
        match DbService.getUserSession dbReadFail s1.db chatId with
        | some row =>
          let t : SessionData := ⟨row.thread_id, row.human_handoff⟩
          (some t,
            { s1 with
              userThreads := ainsert s1.userThreads chatId t
              sessionCache := s1.sessionCache.set now chatId t })
        | none => (none, s1)
      else (none, s1)

/-! ### Supporting lemmas -/

theorem SessionCache.get_fst (c : SessionCache) (now : Nat) (k : ChatId) :
    (c.get now k).1 =
      (alookup c.cache k).bind
        (fun item => if now > item.expires then none else some item.data) := by
  unfold SessionCache.get
  cases h : alookup c.cache k with
  | none => rfl
  | some item =>
    by_cases h2 : now > item.expires
    · simp [h2]
    · simp [h2]

theorem SessionCache.get_snd_of_none (c : SessionCache) (now : Nat) (k : ChatId)
    (h : alookup c.cache k = none) : (c.get now k).2 = c := by
  unfold SessionCache.get
  simp [h]

theorem SessionCache.get_snd_of_live (c : SessionCache) (now : Nat) (k : ChatId)
    (item : CacheEntry) (h : alookup c.cache k = some item)
    (h2 : ¬ now > item.expires) : (c.get now k).2 = c := by
  unfold SessionCache.get
  simp [h, h2]

theorem SessionCache.get_snd_of_expired (c : SessionCache) (now : Nat)
    (k : ChatId) (item : CacheEntry) (h : alookup c.cache k = some item)
    (h2 : now > item.expires) :
    (c.get now k).2 = { c with cache := aerase c.cache k } := by
  unfold SessionCache.get
  simp [h, h2]

/-- A cache read does not change what any later read at the same instant
returns: it only drops entries that were already expired. -/
theorem SessionCache.get_view_after_get (c : SessionCache) (now : Nat)
    (k0 k : ChatId) : (((c.get now k0).2).get now k).1 = (c.get now k).1 := by
  cases h0 : alookup c.cache k0 with
  | none => rw [SessionCache.get_snd_of_none c now k0 h0]
  | some item =>
    by_cases hexp : now > item.expires
    · rw [SessionCache.get_snd_of_expired c now k0 item h0 hexp]
      rw [SessionCache.get_fst, SessionCache.get_fst]
      by_cases hk : k0 = k
      · subst hk
        simp [alookup_aerase_self, h0, hexp]
      · simp only
        rw [alookup_aerase_ne c.cache k0 k hk]
    · rw [SessionCache.get_snd_of_live c now k0 item h0 hexp]

/-- A live cache hit leaves the cache untouched. -/
theorem SessionCache.get_hit_eq (c : SessionCache) (now : Nat) (k : ChatId)
    (t : SessionData) (h : (c.get now k).1 = some t) : (c.get now k).2 = c := by
  unfold SessionCache.get at h ⊢
  cases h0 : alookup c.cache k with
  | none => rfl
  | some item =>
    by_cases hexp : now > item.expires
    · simp [h0, hexp] at h
    · simp [h0, hexp]

/-- Reading a freshly set entry at the same instant returns the set value. -/
theorem SessionCache.get_set_self (c : SessionCache) (now : Nat) (k : ChatId)
    (t : SessionData) : ((c.set now k t).get now k).1 = some t := by
  unfold SessionCache.get SessionCache.set
  simp [alookup_ainsert_self, Nat.not_lt.2 (Nat.le_add_right now c.ttl)]

theorem retryLoop_calls_le {ε α : Type} (op : Nat → Except ε α) (d : Nat) :
    ∀ (R a : Nat) (le : Option ε) (ca : Nat) (de : List Nat),
      (retryLoop op d R a le ca de).calls ≤ ca + R := by
  intro R
  induction R with
  | zero => intro a le ca de; simp [retryLoop]
  | succ R ih =>
    intro a le ca de
    cases h : op a with
    | ok v => simp [retryLoop, h]
    | error e =>
      by_cases hR : R = 0
      · subst hR; simp [retryLoop, h]
      · have := ih (a + 1) (some e) (ca + 1) (de ++ [d * a])
        simp only [retryLoop, h, hR, if_false]
        omega

theorem retryLoop_first_success {ε α : Type} (op : Nat → Except ε α) (d : Nat) :
    ∀ (j R a : Nat) (le : Option ε) (ca : Nat) (de : List Nat) (v : α),
      j < R →
      (∀ i, i < j → ∃ e, op (a + i) = Except.error e) →
      op (a + j) = Except.ok v →
      retryLoop op d R a le ca de =
        ⟨.ok v, ca + j + 1, de ++ (List.range' a j).map (fun i => d * i)⟩ := by
  intro j
  induction j with
  | zero =>
    intro R a le ca de v hjR hfail hok
    obtain ⟨R', rfl⟩ : ∃ R', R = R' + 1 := ⟨R - 1, by omega⟩
    have hok' : op a = Except.ok v := by simpa using hok
    simp [retryLoop, hok']
  | succ j ih =>
    intro R a le ca de v hjR hfail hok
    obtain ⟨R', rfl⟩ : ∃ R', R = R' + 1 := ⟨R - 1, by omega⟩
    obtain ⟨e0, he0⟩ := hfail 0 (Nat.succ_pos j)
    have he0' : op a = Except.error e0 := by simpa using he0
    have hR' : ¬ R' = 0 := by omega
    have hfail' : ∀ i, i < j → ∃ e, op (a + 1 + i) = Except.error e := by
      intro i hi
      obtain ⟨e, he⟩ := hfail (i + 1) (by omega)
      exact ⟨e, by rw [show a + 1 + i = a + (i + 1) by omega]; exact he⟩
    have hok' : op (a + 1 + j) = Except.ok v := by
      rw [show a + 1 + j = a + (j + 1) by omega]; exact hok
    rw [show retryLoop op d (R' + 1) a le ca de =
        retryLoop op d R' (a + 1) (some e0) (ca + 1) (de ++ [d * a]) by
      simp [retryLoop, he0', hR']]
    rw [ih R' (a + 1) (some e0) (ca + 1) (de ++ [d * a]) v (by omega) hfail' hok']
    refine congrArg₂ (fun x y => RetryTrace.mk (Except.ok v) x y) (by omega) ?_
    rw [List.range'_succ]
    simp

theorem retryLoop_all_fail {ε α : Type} (op : Nat → Except ε α) (d : Nat) :
    ∀ (n a : Nat) (le : Option ε) (ca : Nat) (de : List Nat) (eN : ε),
      (∀ i, i < n → ∃ e, op (a + i) = Except.error e) →
      op (a + n) = Except.error eN →
      retryLoop op d (n + 1) a le ca de =
        ⟨.error (some eN), ca + n + 1,
          de ++ (List.range' a n).map (fun i => d * i)⟩ := by
  intro n
  induction n with
  | zero =>
    intro a le ca de eN hfail heN
    have heN' : op a = Except.error eN := by simpa using heN
    simp [retryLoop, heN']
  | succ n ih =>
    intro a le ca de eN hfail heN
    obtain ⟨e0, he0⟩ := hfail 0 (Nat.succ_pos n)
    have he0' : op a = Except.error e0 := by simpa using he0
    have hfail' : ∀ i, i < n → ∃ e, op (a + 1 + i) = Except.error e := by
      intro i hi
      obtain ⟨e, he⟩ := hfail (i + 1) (by omega)
      exact ⟨e, by rw [show a + 1 + i = a + (i + 1) by omega]; exact he⟩
    have heN' : op (a + 1 + n) = Except.error eN := by
      rw [show a + 1 + n = a + (n + 1) by omega]; exact heN
    rw [show retryLoop op d (n + 1 + 1) a le ca de =
        retryLoop op d (n + 1) (a + 1) (some e0) (ca + 1) (de ++ [d * a]) by
      simp [retryLoop, he0']]
    rw [ih (a + 1) (some e0) (ca + 1) (de ++ [d * a]) eN hfail' heN']
    refine congrArg₂ (fun x y => RetryTrace.mk (Except.error (some eN)) x y)
      (by omega) ?_
    rw [List.range'_succ]
    simp

/-- C7: for every operation and `maxAttempts ≥ 1`, `retryOperation` invokes
the operation at most `maxAttempts` times with linear back-off delay
`baseDelay * attemptNumber` between attempts; if the operation succeeds on
attempt `k ≤ maxAttempts` the wrapper returns that result after exactly `k`
invocations; if all `maxAttempts` invocations fail it re-throws the last
error. -/
theorem retryOperation_correct {ε α : Type} (op : Nat → Except ε α)
    (maxAttempts baseDelay : Nat) (hmax : 1 ≤ maxAttempts) :
    (retryOperation op maxAttempts baseDelay).calls ≤ maxAttempts ∧
    (∀ k v, 1 ≤ k → k ≤ maxAttempts →
      (∀ j, 1 ≤ j → j < k → ∃ e, op j = Except.error e) →
      op k = Except.ok v →
      retryOperation op maxAttempts baseDelay =
        ⟨.ok v, k, (List.range' 1 (k - 1)).map (fun i => baseDelay * i)⟩) ∧
    (∀ eN, (∀ j, 1 ≤ j → j < maxAttempts → ∃ e, op j = Except.error e) →
      op maxAttempts = Except.error eN →
      retryOperation op maxAttempts baseDelay =
        ⟨.error (some eN), maxAttempts,
          (List.range' 1 (maxAttempts - 1)).map (fun i => baseDelay * i)⟩) := by
  refine ⟨?_, ?_, ?_⟩
  · simpa using retryLoop_calls_le op baseDelay maxAttempts 1 none 0 []
  · intro k v hk1 hkmax hfail hok
    have h := retryLoop_first_success op baseDelay (k - 1) maxAttempts 1 none 0
      [] v (by omega)
      (fun i hi => by
        obtain ⟨e, he⟩ := hfail (i + 1) (by omega) (by omega)
        exact ⟨e, by rw [show 1 + i = i + 1 by omega]; exact he⟩)
      (by rw [show 1 + (k - 1) = k by omega]; exact hok)
    rw [retryOperation, h]
    refine congrArg₂ (fun x y => RetryTrace.mk (Except.ok v) x y) (by omega) rfl
  · intro eN hfail heN
    have h := retryLoop_all_fail op baseDelay (maxAttempts - 1) 1 none 0 [] eN
      (fun i hi => by
        obtain ⟨e, he⟩ := hfail (i + 1) (by omega) (by omega)
        exact ⟨e, by rw [show 1 + i = i + 1 by omega]; exact he⟩)
      (by rw [show 1 + (maxAttempts - 1) = maxAttempts by omega]; exact heN)
    rw [retryOperation, show maxAttempts = maxAttempts - 1 + 1 by omega, h]
    refine congrArg₂ (fun x y => RetryTrace.mk (Except.error (some eN)) x y)
      (by omega) rfl

/-- Witness for C7: a call that fails twice and succeeds on the third attempt
(`maxAttempts = 3`) yields the successful result after exactly 3 invocations,
having slept 10 and then 20 between the attempts. -/
theorem retryOperation_correct_witness :
    1 ≤ 3 ∧
    retryOperation (fun n => if n < 3 then (Except.error n : Except Nat Nat)
      else .ok 99) 3 10 = ⟨.ok 99, 3, [10, 20]⟩ := by
  refine ⟨by decide, ?_⟩
  have h := (retryOperation_correct
    (fun n => if n < 3 then (Except.error n : Except Nat Nat) else .ok 99)
    3 10 (by decide)).2.1 3 99 (by decide) (by decide)
    (fun j h1 h2 => ⟨j, if_pos h2⟩) (by rfl)
  exact h.trans (by rfl)

/-- A run of consecutive failures below the threshold keeps the breaker
closed and counts every failure. -/
theorem runCalls_closed_failures :
    ∀ (ts : List Nat) (cb : CircuitBreaker), cb.state = .closed →
      cb.failures + ts.length < cb.failureThreshold →
      (cb.runCalls (ts.map (fun t => (t, (Except.error () : Except Unit Unit))))).state
          = .closed ∧
      (cb.runCalls (ts.map (fun t => (t, (Except.error () : Except Unit Unit))))).failures
          = cb.failures + ts.length ∧
      (cb.runCalls (ts.map (fun t => (t, (Except.error () : Except Unit Unit))))).failureThreshold
          = cb.failureThreshold ∧
      (cb.runCalls (ts.map (fun t => (t, (Except.error () : Except Unit Unit))))).resetTimeout
          = cb.resetTimeout := by
  intro ts
  induction ts with
  | nil =>
    intro cb hst hcnt
    exact ⟨hst, by simp [CircuitBreaker.runCalls], rfl, rfl⟩
  | cons t ts ih =>
    intro cb hst hcnt
    have hnotOpen : ¬ cb.state = .opened := by rw [hst]; intro hc; cases hc
    have hlt : ¬ cb.failures + 1 ≥ cb.failureThreshold := by
      simp only [List.length_cons] at hcnt; omega
    have hstep : (cb.execute t (Except.error () : Except Unit Unit)).2.2 =
        { cb with
          failures := cb.failures + 1
          lastFailureTime := some t
          state := cb.state } := by
      simp [CircuitBreaker.execute, CircuitBreaker.isOpen,
        CircuitBreaker.onFailure, hnotOpen, hlt]
    have hrw : cb.runCalls
        ((t :: ts).map (fun t => (t, (Except.error () : Except Unit Unit)))) =
        CircuitBreaker.runCalls
          (cb.execute t (Except.error () : Except Unit Unit)).2.2
          (ts.map (fun t => (t, (Except.error () : Except Unit Unit)))) := by
      simp [CircuitBreaker.runCalls]
    rw [hrw, hstep]
    have := ih { cb with
      failures := cb.failures + 1
      lastFailureTime := some t
      state := cb.state } (by simpa using hst)
      (by simp only [List.length_cons] at hcnt; simpa using (by omega :
        cb.failures + 1 + ts.length < cb.failureThreshold))
    exact ⟨this.1, by rw [this.2.1]; simp only [List.length_cons]; omega,
      this.2.2.1, this.2.2.2⟩

/-- C5: after `failureThreshold` consecutive operation failures the breaker
is `OPEN`, and while `OPEN` — before `resetTimeout` has elapsed since the
last failure — every call via `execute` fails immediately with the distinct
breaker-open error, leaves the breaker unchanged, and never invokes the
underlying operation. -/
theorem circuitBreaker_fail_fast (thr timeout : Nat) (hthr : 1 ≤ thr)
    (ts : List Nat) (hlen : ts.length = thr) :
    ((CircuitBreaker.mk' thr timeout).runCalls
      (ts.map (fun t => (t, (Except.error () : Except Unit Unit))))).state
      = .opened ∧
    (∀ (cb : CircuitBreaker) (now t0 : Nat) (outcome : Except Unit Unit),
      cb.state = .opened → cb.lastFailureTime = some t0 →
      now - t0 < cb.resetTimeout →
      cb.execute now outcome = (.breakerOpen, false, cb)) := by
  constructor
  · have hne : ts ≠ [] := by
      intro hc; rw [hc] at hlen; simp at hlen; omega
    have hsplit : ts = ts.dropLast ++ [ts.getLast hne] :=
      (List.dropLast_append_getLast hne).symm
    rw [hsplit]
    rw [List.map_append]
    rw [show CircuitBreaker.runCalls (CircuitBreaker.mk' thr timeout)
        ((ts.dropLast.map (fun t => (t, (Except.error () : Except Unit Unit)))) ++
          ([ts.getLast hne].map (fun t => (t, (Except.error () : Except Unit Unit))))) =
        CircuitBreaker.runCalls
          (CircuitBreaker.runCalls (CircuitBreaker.mk' thr timeout)
            (ts.dropLast.map (fun t => (t, (Except.error () : Except Unit Unit)))))
          ([ts.getLast hne].map (fun t => (t, (Except.error () : Except Unit Unit)))) by
      simp [CircuitBreaker.runCalls, List.foldl_append]]
    have hdrop : ts.dropLast.length = thr - 1 := by
      rw [List.length_dropLast, hlen]
    have h1 := runCalls_closed_failures ts.dropLast (CircuitBreaker.mk' thr timeout)
      rfl (by simp [CircuitBreaker.mk', hdrop]; omega)
    set cb1 := CircuitBreaker.runCalls (CircuitBreaker.mk' thr timeout)
      (ts.dropLast.map (fun t => (t, (Except.error () : Except Unit Unit)))) with hcb1
    obtain ⟨hs1, hf1, hth1, _⟩ := h1
    have hnotOpen : ¬ cb1.state = .opened := by rw [hs1]; intro hc; cases hc
    have hge : cb1.failures + 1 ≥ cb1.failureThreshold := by
      rw [hf1, hth1]
      simp [CircuitBreaker.mk', hdrop]
      omega
    simp [CircuitBreaker.runCalls, CircuitBreaker.execute, CircuitBreaker.isOpen,
      CircuitBreaker.onFailure, hnotOpen, hge]
  · intro cb now t0 outcome h1 h2 h3
    have hnel : ¬ now - cb.lastFailureTime.getD 0 ≥ cb.resetTimeout := by
      rw [h2]; simpa using h3
    simp [CircuitBreaker.execute, CircuitBreaker.isOpen, h1, hnel]

/-- Witness for C5: with threshold 2, two consecutive failures open the
breaker, and a concrete open breaker inside its reset window rejects a call
unchanged without invoking the operation. -/
theorem circuitBreaker_fail_fast_witness :
    1 ≤ 2 ∧ ([5, 7] : List Nat).length = 2 ∧
    ((CircuitBreaker.mk' 2 100).runCalls
      ([5, 7].map (fun t => (t, (Except.error () : Except Unit Unit))))).state
      = .opened ∧
    CircuitBreaker.execute ⟨2, 100, 2, some 7, .opened⟩ 50
      (Except.ok () : Except Unit Unit) =
      (.breakerOpen, false, ⟨2, 100, 2, some 7, .opened⟩) := by
  have h := circuitBreaker_fail_fast 2 100 (by decide) [5, 7] (by decide)
  exact ⟨by decide, by decide, h.1,
    h.2 ⟨2, 100, 2, some 7, .opened⟩ 50 7 (Except.ok () : Except Unit Unit)
      rfl rfl (by decide)⟩

/-- C6: an `OPEN` breaker whose `resetTimeout` has elapsed since the last
failure moves to `HALF-OPEN` and lets exactly one trial call through; the
trial's success closes the breaker and its failure re-opens it — in
particular the post-trial state is never `HALF-OPEN`, so no second trial can
run in the sequential execution model.  The hypothesis
`failureThreshold ≤ failures` holds of every breaker that reached `OPEN`
(see `runCalls_opened_failures_ge`). -/
theorem circuitBreaker_halfOpen_trial (cb : CircuitBreaker) (now t0 : Nat)
    (outcome : Except Unit Unit)
    (h1 : cb.state = .opened) (h2 : cb.lastFailureTime = some t0)
    (h3 : cb.resetTimeout ≤ now - t0) (h4 : cb.failureThreshold ≤ cb.failures) :
    cb.isOpen now = (false, { cb with state := .halfOpen }) ∧
    (cb.execute now outcome).2.1 = true ∧
    (∀ a, outcome = Except.ok a → (cb.execute now outcome).2.2.state = .closed) ∧
    (∀ e, outcome = Except.error e → (cb.execute now outcome).2.2.state = .opened) ∧
    (cb.execute now outcome).2.2.state ≠ .halfOpen := by
  have hel : now - cb.lastFailureTime.getD 0 ≥ cb.resetTimeout := by
    rw [h2]; simpa using h3
  have hio : cb.isOpen now = (false, { cb with state := .halfOpen }) := by
    simp [CircuitBreaker.isOpen, h1, hel]
  have hge : cb.failures + 1 ≥ cb.failureThreshold := by omega
  refine ⟨hio, ?_, ?_, ?_, ?_⟩
  · cases outcome with
    | ok a => simp [CircuitBreaker.execute, hio]
    | error e => simp [CircuitBreaker.execute, hio]
  · intro a ha
    subst ha
    simp [CircuitBreaker.execute, hio, CircuitBreaker.onSuccess]
  · intro e he
    subst he
    simp [CircuitBreaker.execute, hio, CircuitBreaker.onFailure, hge]
  · cases outcome with
    | ok a =>
      simp [CircuitBreaker.execute, hio, CircuitBreaker.onSuccess]
    | error e =>
      simp [CircuitBreaker.execute, hio, CircuitBreaker.onFailure, hge]

/-- Witness for C6: a concrete open breaker past its reset window runs the
trial call; a failing trial re-opens the breaker. -/
theorem circuitBreaker_halfOpen_trial_witness :
    (⟨2, 100, 2, some 7, .opened⟩ : CircuitBreaker).state = .opened ∧
    (⟨2, 100, 2, some 7, .opened⟩ : CircuitBreaker).lastFailureTime = some 7 ∧
    (⟨2, 100, 2, some 7, .opened⟩ : CircuitBreaker).resetTimeout ≤ 200 - 7 ∧
    (⟨2, 100, 2, some 7, .opened⟩ : CircuitBreaker).failureThreshold ≤
      (⟨2, 100, 2, some 7, .opened⟩ : CircuitBreaker).failures ∧
    (CircuitBreaker.execute ⟨2, 100, 2, some 7, .opened⟩ 200
      (Except.error () : Except Unit Unit)).2.1 = true ∧
    (CircuitBreaker.execute ⟨2, 100, 2, some 7, .opened⟩ 200
      (Except.error () : Except Unit Unit)).2.2.state = .opened := by
  have h := circuitBreaker_halfOpen_trial ⟨2, 100, 2, some 7, .opened⟩ 200 7
    (Except.error () : Except Unit Unit) rfl rfl (by decide) (by decide)
  exact ⟨rfl, rfl, by decide, by decide, h.2.1, h.2.2.2.1 () rfl⟩

/-- One `execute` step preserves the invariant "not `CLOSED` implies at least
`failureThreshold` accumulated failures". -/
theorem execute_preserves_inv (cb : CircuitBreaker) (now : Nat)
    (outcome : Except Unit (Unit : Type))
    (h : cb.state ≠ .closed → cb.failureThreshold ≤ cb.failures) :
    (cb.execute now outcome).2.2.state ≠ .closed →
      (cb.execute now outcome).2.2.failureThreshold ≤
        (cb.execute now outcome).2.2.failures := by
  unfold CircuitBreaker.execute CircuitBreaker.isOpen CircuitBreaker.onSuccess
    CircuitBreaker.onFailure
  by_cases hst : cb.state = .opened
  · by_cases hel : now - cb.lastFailureTime.getD 0 ≥ cb.resetTimeout
    · have hthr : cb.failureThreshold ≤ cb.failures :=
        h (by rw [hst]; intro hc; cases hc)
      cases outcome with
      | ok a => simp [hst, hel]
      | error e =>
        simp only [hst, if_true, hel, if_pos, if_false]
        intro _
        simp
        omega
    · simp only [hst, if_true, hel, if_neg, if_false]
      simpa [hst] using h
  · cases outcome with
    | ok a => simp [hst]
    | error e =>
      simp only [hst, if_false]
      intro hne
      by_cases hge : cb.failures + 1 ≥ cb.failureThreshold
      · simp [hge]
      · simp only [hge, if_false] at hne ⊢
        simp at hne ⊢
        have := h (by simpa using hne)
        omega

/-- Every breaker that is not `CLOSED` after any sequence of `execute` calls
from a fresh instance has accumulated at least `failureThreshold` failures:
this justifies the corresponding hypothesis of the half-open trial theorem. -/
theorem runCalls_opened_failures_ge (thr timeout : Nat)
    (calls : List (Nat × Except Unit Unit)) :
    ((CircuitBreaker.mk' thr timeout).runCalls calls).state ≠ .closed →
      ((CircuitBreaker.mk' thr timeout).runCalls calls).failureThreshold ≤
        ((CircuitBreaker.mk' thr timeout).runCalls calls).failures := by
  suffices hgen : ∀ (calls : List (Nat × Except Unit Unit)) (cb : CircuitBreaker),
      (cb.state ≠ .closed → cb.failureThreshold ≤ cb.failures) →
      ((cb.runCalls calls).state ≠ .closed →
        (cb.runCalls calls).failureThreshold ≤ (cb.runCalls calls).failures) by
    exact hgen calls (CircuitBreaker.mk' thr timeout) (fun hc => absurd rfl hc)
  intro calls
  induction calls with
  | nil => intro cb h; simpa [CircuitBreaker.runCalls] using h
  | cons p calls ih =>
    intro cb h
    have hrw : cb.runCalls (p :: calls) =
        CircuitBreaker.runCalls (cb.execute p.1 p.2).2.2 calls := by
      simp [CircuitBreaker.runCalls]
    rw [hrw]
    exact ih (cb.execute p.1 p.2).2.2 (execute_preserves_inv cb p.1 p.2 h)

/-! ### C1 — the tiered read path -/

/-- A state separating the tiers: the in-memory map and the TTL cache hold
different sessions for chat 42 (`threadA` in memory, a live `threadB` entry
in the cache). -/
def c1State : BotState :=
  ⟨[(42, ⟨"threadA", false⟩)],
    ⟨[(42, ⟨⟨"threadB", false⟩, 100⟩)], 50⟩, false, ⟨[], []⟩⟩

/-- C1 (counterexample): the read path does not consult the in-memory map
before the TTL cache, and a cache hit is not promoted anywhere: on `c1State`
the code returns the cache value `threadB` while a memory-first read (the
claim's order, `getSessionSpecOrder`) returns `threadA`, and after the read
the in-memory map still holds `threadA`. -/
theorem getUserThread_order_counterexample :
    (c1State.getUserThread 10 false 42).1 = some ⟨"threadB", false⟩ ∧
    (getSessionSpecOrder c1State 10 false 42).1 = some ⟨"threadA", false⟩ ∧
    (c1State.getUserThread 10 false 42).1 ≠
      (getSessionSpecOrder c1State 10 false 42).1 ∧
    alookup ((c1State.getUserThread 10 false 42).2).userThreads 42 =
      some ⟨"threadA", false⟩ := by
  decide

/-- C1 (amended): the read path tries the TTL cache, then the in-memory map,
then the durable store; an in-memory hit is copied into the cache, a durable
hit into both the map and the cache; the read returns `null` when the chat is
absent from (or expired in) the cache and the map and the durable store has
no row (or the database tier is disabled or unreadable). -/
theorem getUserThread_read_path (s : BotState) (now : Nat) (dbReadFail : Bool)
    (c : ChatId) :
    (∀ t, (s.sessionCache.get now c).1 = some t →
      s.getUserThread now dbReadFail c = (some t, s)) ∧
    (∀ t, (s.sessionCache.get now c).1 = none →
      alookup s.userThreads c = some t →
      s.getUserThread now dbReadFail c =
        (some t,
          { s with sessionCache := ((s.sessionCache.get now c).2).set now c t })) ∧
    (∀ row, (s.sessionCache.get now c).1 = none →
      alookup s.userThreads c = none → s.useDatabase = true →
      DbService.getUserSession dbReadFail s.db c = some row →
      s.getUserThread now dbReadFail c =
        (some ⟨row.thread_id, row.human_handoff⟩,
          { s with
            userThreads :=
              ainsert s.userThreads c ⟨row.thread_id, row.human_handoff⟩
            sessionCache := ((s.sessionCache.get now c).2).set now c
              ⟨row.thread_id, row.human_handoff⟩ })) ∧
    ((s.sessionCache.get now c).1 = none →
      alookup s.userThreads c = none →
      (s.useDatabase = false ∨
        DbService.getUserSession dbReadFail s.db c = none) →
      (s.getUserThread now dbReadFail c).1 = none) := by
  refine ⟨?_, ?_, ?_, ?_⟩
  · intro t h
    have h2 := SessionCache.get_hit_eq s.sessionCache now c t h
    simp [BotState.getUserThread, h, h2]
  · intro t hc hm
    simp [BotState.getUserThread, hc, hm]
  · intro row hc hm hdb hrow
    simp [BotState.getUserThread, hc, hm, hdb, hrow]
  · intro hc hm hnone
    cases hnone with
    | inl hdb => simp [BotState.getUserThread, hc, hm, hdb]
    | inr hrow =>
      by_cases hdb : s.useDatabase = true
      · simp [BotState.getUserThread, hc, hm, hdb, hrow]
      · simp [BotState.getUserThread, hc, hm, hdb]

/-- Witness for C1 (amended): falling through to a durable row promotes it
into both faster tiers. -/
theorem getUserThread_read_path_witness :
    ((⟨[], ⟨[], 50⟩, true, ⟨[(42, ⟨"T", true, false⟩)], []⟩⟩ :
        BotState).sessionCache.get 0 42).1 = none ∧
    alookup (⟨[], ⟨[], 50⟩, true, ⟨[(42, ⟨"T", true, false⟩)], []⟩⟩ :
        BotState).userThreads 42 = none ∧
    (⟨[], ⟨[], 50⟩, true, ⟨[(42, ⟨"T", true, false⟩)], []⟩⟩ :
        BotState).useDatabase = true ∧
    DbService.getUserSession false
      (⟨[], ⟨[], 50⟩, true, ⟨[(42, ⟨"T", true, false⟩)], []⟩⟩ : BotState).db 42
      = some ⟨"T", true, false⟩ ∧
    BotState.getUserThread
      ⟨[], ⟨[], 50⟩, true, ⟨[(42, ⟨"T", true, false⟩)], []⟩⟩ 0 false 42 =
      (some ⟨"T", true⟩,
        ⟨[(42, ⟨"T", true⟩)], ⟨[(42, ⟨⟨"T", true⟩, 50⟩)], 50⟩, true,
          ⟨[(42, ⟨"T", true, false⟩)], []⟩⟩) := by
  have h := (getUserThread_read_path
    ⟨[], ⟨[], 50⟩, true, ⟨[(42, ⟨"T", true, false⟩)], []⟩⟩ 0 false 42).2.2.1
    ⟨"T", true, false⟩ rfl rfl rfl rfl
  exact ⟨rfl, rfl, rfl, rfl, h.trans (by rfl)⟩

/-! ### C2 — durable-tier writes are best-effort, not gating -/

/-- A state whose session for chat 42 exists in all three tiers. -/
def c2State : BotState :=
  ⟨[(42, ⟨"t42", false⟩)], ⟨[], 3600000⟩, true,
    ⟨[(42, ⟨"t42", false, false⟩)], []⟩⟩

/-- A fresh state with the durable tier enabled but empty. -/
def c2Fresh : BotState :=
  ⟨[], ⟨[], 3600000⟩, true, ⟨[], []⟩⟩

/-- C2 (counterexample): with the durable store enabled and its write
failing, `setHumanHandoff` still acknowledges the write with `true` while the
durable row keeps the old flag, and `storeUserThread` completes, storing the
session in the fast tiers only — the durable tier never saw it.  The failure
was swallowed inside `DbService`, so neither write is rejected. -/
theorem sessionWrite_ack_counterexample :
    (c2State.setHumanHandoff 0 false true 42 true).1 = true ∧
    (alookup ((c2State.setHumanHandoff 0 false true 42 true).2).db.sessions
      42).map (·.human_handoff) = some false ∧
    alookup (c2Fresh.storeUserThread 0 true 7 "t7" false).db.sessions 7 =
      none ∧
    alookup (c2Fresh.storeUserThread 0 true 7 "t7" false).userThreads 7 =
      some ⟨"t7", false⟩ := by
  decide

/-- The read path never writes the durable tier and never toggles the
database flag. -/
theorem getUserThread_preserves_db (s : BotState) (now : Nat) (f : Bool)
    (c : ChatId) :
    ((s.getUserThread now f c).2).db = s.db ∧
    ((s.getUserThread now f c).2).useDatabase = s.useDatabase := by
  unfold BotState.getUserThread
  cases h1 : (s.sessionCache.get now c).1 with
  | some t => simp [h1]
  | none =>
    cases h2 : alookup s.userThreads c with
    | some t => simp [h1, h2]
    | none =>
      by_cases hdb : s.useDatabase = true
      · cases h3 : DbService.getUserSession f s.db c with
        | some row => simp [h1, h2, hdb, h3]
        | none => simp [h1, h2, hdb, h3]
      · simp [h1, h2, hdb]

/-- C2 (amended): a session write updates the in-memory map and the TTL cache
and performs the durable write synchronously, but a durable-tier failure is
caught and logged inside `DbService` (`storeUserSession` returns `null`,
the handoff update returns `false`), so the overall write still completes:
`storeUserThread` resolves with the fast tiers updated and the durable tier
untouched, and `setHumanHandoff` still returns `true`. -/
theorem sessionWrite_durable_best_effort (s : BotState) (now : Nat)
    (c : ChatId) (tid : String) (hh enabled dbFail : Bool)
    (hdb : s.useDatabase = true) :
    alookup (s.storeUserThread now dbFail c tid hh).userThreads c =
      some ⟨tid, hh⟩ ∧
    (((s.storeUserThread now dbFail c tid hh).sessionCache.get now c)).1 =
      some ⟨tid, hh⟩ ∧
    (dbFail = false →
      (alookup (s.storeUserThread now dbFail c tid hh).db.sessions c).map
        (fun r => (r.thread_id, r.human_handoff)) = some (tid, hh)) ∧
    (dbFail = true → (s.storeUserThread now dbFail c tid hh).db = s.db) ∧
    (∀ t, (s.getUserThread now false c).1 = some t →
      (s.setHumanHandoff now false dbFail c enabled).1 = true) ∧
    (∀ t, (s.getUserThread now false c).1 = some t → dbFail = true →
      ((s.setHumanHandoff now false dbFail c enabled).2).db = s.db) := by
  refine ⟨?_, ?_, ?_, ?_, ?_, ?_⟩
  · simp [BotState.storeUserThread, hdb, alookup_ainsert_self]
  · simp [BotState.storeUserThread, hdb, SessionCache.get_set_self]
  · intro hf
    subst hf
    simp [BotState.storeUserThread, hdb, DbService.storeUserSession,
      alookup_ainsert_self]
  · intro hf
    subst hf
    simp [BotState.storeUserThread, hdb, DbService.storeUserSession]
  · intro t ht
    simp [BotState.setHumanHandoff, ht]
  · intro t ht hf
    subst hf
    have hpres := getUserThread_preserves_db s now false c
    simp [BotState.setHumanHandoff, ht, DbService.setHumanHandoff,
      hpres.1, hpres.2]

/-- Witness for C2 (amended): the concrete failing durable write on
`c2Fresh` and `c2State`. -/
theorem sessionWrite_durable_best_effort_witness :
    c2Fresh.useDatabase = true ∧
    alookup (c2Fresh.storeUserThread 0 true 7 "t7" false).userThreads 7 =
      some ⟨"t7", false⟩ ∧
    (c2Fresh.storeUserThread 0 true 7 "t7" false).db = c2Fresh.db ∧
    (c2State.setHumanHandoff 0 false true 42 true).1 = true := by
  have h := sessionWrite_durable_best_effort c2Fresh 0 7 "t7" false false true
    rfl
  have h2 := sessionWrite_durable_best_effort c2State 0 42 "t42" false true
    true rfl
  exact ⟨rfl, h.1, h.2.2.2.1 rfl,
    h2.2.2.2.2.1 ⟨"t42", false⟩ (by rfl)⟩

/-! ### C3 — `setHumanHandoff` requires an existing session -/

/-- After a read that found a session, `setHumanHandoff` re-sets the cache
with the session updated in place. -/
theorem setHumanHandoff_snd_sessionCache (s : BotState) (now : Nat)
    (dr dw : Bool) (c : ChatId) (enabled : Bool) (t : SessionData)
    (ht : (s.getUserThread now dr c).1 = some t) :
    ((s.setHumanHandoff now dr dw c enabled).2).sessionCache =
      ((s.getUserThread now dr c).2).sessionCache.set now c
        ⟨t.id, enabled⟩ := by
  simp only [BotState.setHumanHandoff, ht]
  split
  · rfl
  · rfl

/-- C3: for a chat with no session in any storage tier, `setHumanHandoff`
returns `false`, creates no session and leaves every tier unchanged (the TTL
cache unchanged as observed by reads — at most an already-expired entry is
physically dropped); for a chat with a session it returns `true` and the
registry subsequently reads the updated handoff flag. -/
theorem setHumanHandoff_requires_session (s : BotState) (now : Nat)
    (dbReadFail dbWriteFail : Bool) (c : ChatId) (enabled : Bool) :
    ((s.sessionCache.get now c).1 = none →
      alookup s.userThreads c = none →
      (s.useDatabase = true →
        DbService.getUserSession dbReadFail s.db c = none) →
      (s.setHumanHandoff now dbReadFail dbWriteFail c enabled).1 = false ∧
      ((s.setHumanHandoff now dbReadFail dbWriteFail c enabled).2).userThreads
        = s.userThreads ∧
      ((s.setHumanHandoff now dbReadFail dbWriteFail c enabled).2).db = s.db ∧
      (∀ k, (((s.setHumanHandoff now dbReadFail dbWriteFail c
          enabled).2).sessionCache.get now k).1 =
        (s.sessionCache.get now k).1)) ∧
    (∀ t, (s.getUserThread now dbReadFail c).1 = some t →
      (s.setHumanHandoff now dbReadFail dbWriteFail c enabled).1 = true ∧
      (((s.setHumanHandoff now dbReadFail dbWriteFail c
          enabled).2).isInHumanHandoff now dbReadFail c).1 = enabled) := by
  constructor
  · intro hc hm hdbnone
    have hread : s.getUserThread now dbReadFail c =
        (none, { s with sessionCache := (s.sessionCache.get now c).2 }) := by
      by_cases hdb : s.useDatabase = true
      · simp [BotState.getUserThread, hc, hm, hdb, hdbnone hdb]
      · simp [BotState.getUserThread, hc, hm, hdb]
    refine ⟨?_, ?_, ?_, ?_⟩
    · simp [BotState.setHumanHandoff, hread]
    · simp [BotState.setHumanHandoff, hread]
    · simp [BotState.setHumanHandoff, hread]
    · intro k
      simp only [BotState.setHumanHandoff, hread]
      exact SessionCache.get_view_after_get s.sessionCache now c k
  · intro t ht
    constructor
    · simp [BotState.setHumanHandoff, ht]
    · have hsc := setHumanHandoff_snd_sessionCache s now dbReadFail
        dbWriteFail c enabled t ht
      simp [BotState.isInHumanHandoff, BotState.getUserThread, hsc,
        SessionCache.get_set_self]

/-- A state with a session for chat 42 in the in-memory and durable tiers. -/
def c3State : BotState :=
  ⟨[(42, ⟨"t42", false⟩)], ⟨[], 3600000⟩, true,
    ⟨[(42, ⟨"t42", false, false⟩)], []⟩⟩

/-- Witness for C3: chat 7 has no session (`false`, nothing changed); chat 42
has one (`true`, and the registry reads `handoff = true` afterwards). -/
theorem setHumanHandoff_requires_session_witness :
    ((c3State.sessionCache.get 0 7).1 = none ∧
     alookup c3State.userThreads 7 = none ∧
     (c3State.setHumanHandoff 0 false false 7 true).1 = false ∧
     ((c3State.setHumanHandoff 0 false false 7 true).2).userThreads =
       c3State.userThreads) ∧
    ((c3State.getUserThread 0 false 42).1 = some ⟨"t42", false⟩ ∧
     (c3State.setHumanHandoff 0 false false 42 true).1 = true ∧
     (((c3State.setHumanHandoff 0 false false 42
         true).2).isInHumanHandoff 0 false 42).1 = true) := by
  have h := setHumanHandoff_requires_session c3State 0 false false 7 true
  have h2 := setHumanHandoff_requires_session c3State 0 false false 42 true
  refine ⟨⟨rfl, rfl, ?_, ?_⟩, rfl, ?_, ?_⟩
  · exact (h.1 rfl rfl (fun _ => rfl)).1
  · exact (h.1 rfl rfl (fun _ => rfl)).2.1
  · exact (h2.2 ⟨"t42", false⟩ (by rfl)).1
  · exact (h2.2 ⟨"t42", false⟩ (by rfl)).2

/-! ### C4 — the hand-off marker in an assistant reply -/

/-- A state with the session for chat 42 live in all three tiers, handoff
disabled everywhere. -/
def c4State : BotState :=
  ⟨[(42, ⟨"t42", false⟩)],
    ⟨[(42, ⟨⟨"t42", false⟩, 1000⟩)], 500⟩, true,
    ⟨[(42, ⟨"t42", false, false⟩)], []⟩⟩

/-- C4 (counterexample): an assistant reply containing the marker as an exact
substring does not flip the handoff flag: after `sendMessage` the in-memory
map, the TTL cache and the durable row all still carry `handoff = false`, and
the registry still reports the chat as AI-controlled. -/
theorem handoffMarker_no_transition_counterexample :
    jsIncludes "xx OPERATOR yy" "OPERATOR" = true ∧
    ((c4State.sendMessageSvc "OPERATOR" false 42 "xx OPERATOR yy"
      .assistant).1).userThreads = c4State.userThreads ∧
    ((c4State.sendMessageSvc "OPERATOR" false 42 "xx OPERATOR yy"
      .assistant).1).sessionCache = c4State.sessionCache ∧
    (alookup ((c4State.sendMessageSvc "OPERATOR" false 42 "xx OPERATOR yy"
      .assistant).1).db.sessions 42).map (·.human_handoff) = some false ∧
    (((c4State.sendMessageSvc "OPERATOR" false 42 "xx OPERATOR yy"
      .assistant).1).isInHumanHandoff 5 false 42).1 = false := by
  decide

/-- C4 (amended): when the assistant reply contains the configured marker as
an exact substring, the reply and the one-time operator-contact affordance
are sent to the user, and — with the durable store enabled — `role='system'`
audit entries are appended to the message log and the session row's
`transferred_to_operator` audit field is set; the session's handoff flag
itself is not changed by this path in any tier (the transition to
human control happens only through the operator handoff command). -/
theorem handoffMarker_effects (s : BotState) (marker text : String)
    (c : ChatId) (role : Role) (row : DbSessionRow)
    (hmark : jsIncludes text marker = true) (hdb : s.useDatabase = true)
    (hrow : alookup s.db.sessions c = some row) :
    ((s.sendMessageSvc marker false c text role).1).userThreads =
      s.userThreads ∧
    ((s.sendMessageSvc marker false c text role).1).sessionCache =
      s.sessionCache ∧
    alookup ((s.sendMessageSvc marker false c text role).1).db.sessions c =
      some { row with transferred_to_operator := true } ∧
    ((s.sendMessageSvc marker false c text role).1).db.message_logs =
      s.db.message_logs ++
        [⟨c, .system, "User transferred to operator"⟩,
         ⟨c, .system, "Operator contact button sent"⟩] ∧
    (s.sendMessageSvc marker false c text role).2 =
      [(c, .reply text), (c, .contactButton)] := by
  simp only [BotState.sendMessageSvc, hmark, if_true,
    BotState.sendOperatorContact, hdb, DbService.logOperatorTransfer,
    DbService.logMessage, hrow]
  simp [alookup_ainsert_self]

/-- Witness for C4 (amended): the concrete marker reply on `c4State`. -/
theorem handoffMarker_effects_witness :
    jsIncludes "go OP now" "OP" = true ∧
    c4State.useDatabase = true ∧
    alookup c4State.db.sessions 42 = some ⟨"t42", false, false⟩ ∧
    (c4State.sendMessageSvc "OP" false 42 "go OP now" .assistant).2 =
      [(42, .reply "go OP now"), (42, .contactButton)] ∧
    alookup ((c4State.sendMessageSvc "OP" false 42 "go OP now"
      .assistant).1).db.sessions 42 = some ⟨"t42", false, true⟩ := by
  have h := handoffMarker_effects c4State "OP" "go OP now" 42 .assistant
    ⟨"t42", false, false⟩ (by rfl) rfl rfl
  exact ⟨by rfl, rfl, rfl, h.2.2.2.2, h.2.2.1⟩

/-! ### C8 — webhook HTTP statuses -/

/-- C8 (counterexample): a malformed webhook payload receives HTTP 400 — not
200 — from `WebhookController.handleUpdate` (an object without a numeric
`update_id`, or a missing body), and the serverless handler responds 500 when
processing throws. -/
theorem webhook_always200_counterexample :
    WebhookController.handleUpdate (some ⟨true, false⟩) (.ok ()) = 400 ∧
    WebhookController.handleUpdate none (.ok ()) = 400 ∧
    serverlessWebhookStatus (some ⟨true, true⟩) (.error "boom") = 500 ∧
    (400 : Nat) ≠ 200 := by
  decide

/-- C8 (amended): `WebhookController.handleUpdate` responds 200 for every
structurally valid update regardless of the internal processing outcome — a
processing failure is caught and still answered 200 — but a malformed
payload is answered 400; the serverless webhook handler answers 400 for a
missing body and 500 when processing throws. -/
theorem webhook_status_spec (body : Option WebhookBody)
    (processing : Except String Unit) :
    (WebhookController.isValidUpdate body = true →
      WebhookController.handleUpdate body processing = 200) ∧
    (WebhookController.isValidUpdate body = false →
      WebhookController.handleUpdate body processing = 400) ∧
    serverlessWebhookStatus none processing = 400 ∧
    (∀ b, serverlessWebhookStatus (some b) (.ok ()) = 200) ∧
    (∀ b e, serverlessWebhookStatus (some b) (.error e) = 500) := by
  refine ⟨?_, ?_, ?_, ?_, ?_⟩
  · intro h
    cases processing with
    | ok u => simp [WebhookController.handleUpdate, h]
    | error e => simp [WebhookController.handleUpdate, h]
  · intro h
    simp [WebhookController.handleUpdate, h]
  · simp [serverlessWebhookStatus]
  · intro b
    simp [serverlessWebhookStatus]
  · intro b e
    simp [serverlessWebhookStatus]

/-- Witness for C8 (amended): a valid update whose processing throws is still
answered 200; an invalid one is answered 400. -/
theorem webhook_status_spec_witness :
    WebhookController.isValidUpdate (some ⟨true, true⟩) = true ∧
    WebhookController.handleUpdate (some ⟨true, true⟩) (.error "x") = 200 ∧
    WebhookController.isValidUpdate (some ⟨true, false⟩) = false ∧
    WebhookController.handleUpdate (some ⟨true, false⟩) (.ok ()) = 400 := by
  have h := webhook_status_spec (some ⟨true, true⟩) (.error "x")
  have h2 := webhook_status_spec (some ⟨true, false⟩) (.ok ())
  exact ⟨rfl, h.1 rfl, rfl, h2.2.1 rfl⟩

/-! ### C9 — the dispatch queue starves items beyond the first batch -/

/-- Two messages enqueued on a fresh queue with concurrency 1, then the first
in-flight item completes (its external signal arrives). -/
def c9Trace : MQState := (((MQState.mk' 1).add 1).add 2).complete 1

/-- C9: the concrete run exposing the starvation bug.  With concurrency 1 and
two enqueued items, after the first item completes the second is still queued
(`queue = [2]`), nothing is in flight, yet `isProcessing` is stuck `true`:
the `processQueue` call made by the completion callback returned at the
re-entry guard, and every available step from here (any further completion
signal, or `processQueue` itself) leaves the state fixed, so item 2's
deferred result never settles. -/
theorem messageQueue_starvation :
    c9Trace.settled = [1] ∧ c9Trace.queue = [2] ∧ c9Trace.inFlight = [] ∧
    c9Trace.processing = 0 ∧ c9Trace.isProcessing = true ∧
    (∀ i, c9Trace.complete i = c9Trace) ∧
    c9Trace.processQueue = c9Trace := by
  have h : c9Trace = ⟨[2], 0, true, 1, [], [1]⟩ := by decide
  refine ⟨by rw [h], by rw [h], by rw [h], by rw [h], by rw [h], ?_, ?_⟩
  · intro i
    rw [h]
    simp [MQState.complete]
  · rw [h]
    simp [MQState.processQueue]

/-! ### C10 — a failing `createThread` stores nothing -/

/-- C10: when the AI-backend `createThread` call of the `/start` handler
fails, the handler stores no session — every storage tier is left exactly as
it was — and the user receives the failure message instead of the welcome
message. -/
theorem startHandler_createThread_failure (s : BotState) (now : Nat)
    (dbFail : Bool) (c : ChatId) (err : String) :
    startHandler s now true (.error err) dbFail c =
      (s, [(c, .failedToCreateSession)]) ∧
    BotText.failedToCreateSession ≠ BotText.welcome := by
  refine ⟨?_, by decide⟩
  simp [startHandler]

end TelegramDTV
